import Mathlib

/-!
Verification development for rail_gui.cpp (rail construction user interface).

The definitions below are a shallow embedding of the functions of
src/rail_gui.cpp that the stated properties talk about.  Machine integers are
modelled as Nat (bit operations written explicitly); tiles are modelled as
coordinate pairs; global mutable variables become explicit state records;
calls into the external command/tile/widget engine become either environment
functions (for queries) or elements of an emitted effect trace (for actions).
Enum constants that live in repository headers outside the excerpt
(track_type.h, direction_type.h, rail_widget.h, command_type.h, ...) are
given here as Nat constants; where a theorem does not depend on the exact
numeric value, only distinctness of the constants matters.
-/

/-- A tile of the game map, identified by its x/y coordinates.  TileIndex
arithmetic of the source (TILE_ADDXY, TileX, TileY) is modelled directly on
coordinates; Int coordinates let the NE offset (-1, 0) be represented. -/
structure TileXY where
  x : Int
  y : Int
deriving DecidableEq, Repr

/-- TILE_ADDXY(tile, dx, dy): coordinate-wise tile offset. -/
def TILE_ADDXY (t : TileXY) (dx dy : Int) : TileXY := ⟨t.x + dx, t.y + dy⟩

/-- C++ implicit bool-to-integer conversion used in TILE_ADDXY arguments. -/
def boolToInt (b : Bool) : Int := if b then 1 else 0

/-! Track values (track_type.h). -/

def TRACK_X : Nat := 0
def TRACK_Y : Nat := 1
def TRACK_UPPER : Nat := 2
def TRACK_LOWER : Nat := 3
def TRACK_LEFT : Nat := 4
def TRACK_RIGHT : Nat := 5
def INVALID_TRACK : Nat := 0xFF

/-! TrackBits values (track_type.h): bit n set means track n present. -/

def TRACK_BIT_X : Nat := 1
def TRACK_BIT_Y : Nat := 2
def TRACK_BIT_UPPER : Nat := 4
def TRACK_BIT_LOWER : Nat := 8
def TRACK_BIT_LEFT : Nat := 16
def TRACK_BIT_RIGHT : Nat := 32
/-- TRACK_BIT_HORZ = TRACK_BIT_UPPER | TRACK_BIT_LOWER. -/
def TRACK_BIT_HORZ : Nat := TRACK_BIT_UPPER ||| TRACK_BIT_LOWER
/-- TRACK_BIT_VERT = TRACK_BIT_LEFT | TRACK_BIT_RIGHT. -/
def TRACK_BIT_VERT : Nat := TRACK_BIT_LEFT ||| TRACK_BIT_RIGHT

/-! Trackdir values (track_type.h). -/

def TRACKDIR_X_NE : Nat := 0
def TRACKDIR_Y_SE : Nat := 1
def TRACKDIR_UPPER_E : Nat := 2
def TRACKDIR_LOWER_E : Nat := 3
def TRACKDIR_LEFT_S : Nat := 4
def TRACKDIR_RIGHT_S : Nat := 5
def TRACKDIR_X_SW : Nat := 8
def TRACKDIR_Y_NW : Nat := 9
def TRACKDIR_UPPER_W : Nat := 10
def TRACKDIR_LOWER_W : Nat := 11
def TRACKDIR_LEFT_N : Nat := 12
def TRACKDIR_RIGHT_N : Nat := 13

/-! DiagDirection values (direction_type.h). -/

def DIAGDIR_NE : Nat := 0
def DIAGDIR_SE : Nat := 1
def DIAGDIR_SW : Nat := 2
def DIAGDIR_NW : Nat := 3
def DIAGDIR_END : Nat := 4
def DIAGDIRDIFF_90RIGHT : Nat := 1

/-- ChangeDiagDir (direction_func.h): rotate a DiagDirection by a difference. -/
def ChangeDiagDir (d diff : Nat) : Nat := (d + diff) % 4

/-- OtherAxis (direction_func.h): flip AXIS_X and AXIS_Y. -/
def OtherAxis (a : Nat) : Nat := a ^^^ 1

/-! Levelling modes of CmdLevelLand (terraform command interface). -/

def LM_LEVEL : Nat := 0
def LM_LOWER : Nat := 1
def LM_RAISE : Nat := 2

/-! Rail tile types (rail_map.h). -/

def RAIL_TILE_NORMAL : Nat := 0
def RAIL_TILE_SIGNALS : Nat := 1
def RAIL_TILE_DEPOT : Nat := 3

/-- FIND_FIRST_BIT: index of the least significant set bit. -/
def FIND_FIRST_BIT (x : Nat) : Nat :=
  (((List.range 64).find? (fun i => x.testBit i)).getD 0)

/-- FindFirstTrack (track_func.h): first track of a TrackBits value,
INVALID_TRACK for the empty set. -/
def FindFirstTrack (tracks : Nat) : Nat :=
  if tracks ≠ 0 then FIND_FIRST_BIT tracks else INVALID_TRACK

/-- Track choice of GenericPlaceSignals (rail_gui.cpp): given the tile's
track bits (result of GetTileTrackStatus) and the in-tile fractional
coordinates _tile_fract_coords.x and .y, the track for which the signal
command is issued.  Mirrors the two replacement steps and the final
FindFirstTrack of the source. -/
def GenericPlaceSignals_track (trackbits fx fy : Nat) : Nat :=
  let trackbits1 :=
    if trackbits &&& TRACK_BIT_VERT ≠ 0 then
      (if fx ≤ fy then TRACK_BIT_RIGHT else TRACK_BIT_LEFT)
    else trackbits
  let trackbits2 :=
    if trackbits1 &&& TRACK_BIT_HORZ ≠ 0 then
      (if fx + fy ≤ 15 then TRACK_BIT_UPPER else TRACK_BIT_LOWER)
    else trackbits1
  FindFirstTrack trackbits2

/-! Depot extra-track tables (rail_gui.cpp). -/

/-- Additional pieces of track to add at the entrance of a depot. -/
def _place_depot_extra_track : List Nat :=
  [TRACK_LEFT,  TRACK_UPPER, TRACK_UPPER, TRACK_RIGHT,
   TRACK_X,     TRACK_Y,     TRACK_X,     TRACK_Y,
   TRACK_LOWER, TRACK_LEFT,  TRACK_RIGHT, TRACK_LOWER]

/-- Direction to check for existing track pieces. -/
def _place_depot_extra_dir : List Nat :=
  [DIAGDIR_SE, DIAGDIR_SW, DIAGDIR_SE, DIAGDIR_SW,
   DIAGDIR_SW, DIAGDIR_NW, DIAGDIR_NE, DIAGDIR_SE,
   DIAGDIR_NW, DIAGDIR_NE, DIAGDIR_NW, DIAGDIR_NE]

/-! Drag-signals density clicks (BuildSignalWindow::OnClick). -/

/-- The two density arrow buttons of the signal GUI. -/
inductive SignalDensityClick where
  | decrease
  | increase
deriving DecidableEq, Repr

/-- Effect of one click on _settings_client.gui.drag_signals_density,
mirroring the two guarded cases of BuildSignalWindow::OnClick. -/
def BuildSignalWindow_OnClick_density (c : SignalDensityClick) (v : Nat) : Nat :=
  match c with
  | .decrease => if v > 1 then v - 1 else v
  | .increase => if v < 20 then v + 1 else v

/-- A sequence of clicks on the density buttons, applied left to right. -/
def applyDensityClicks (cs : List SignalDensityClick) (v : Nat) : Nat :=
  cs.foldl (fun v c => BuildSignalWindow_OnClick_density c v) v

/-- Claim C8, as stated, is refuted here: on a tile whose track status carries
both horizontal pieces and also both vertical pieces (trackbits 60), with
fractional coordinates (0, 0) (so fx + fy ≤ 15), the chosen track is
TRACK_RIGHT, not TRACK_BIT_UPPER: the vertical-pair branch runs first and its
result has no horizontal bit left for the second branch to see. -/
theorem c8_counterexample_crossing :
    60 &&& TRACK_BIT_HORZ = TRACK_BIT_HORZ ∧ (0 + 0 ≤ 15) ∧
    GenericPlaceSignals_track 60 0 0 = TRACK_RIGHT ∧ TRACK_RIGHT ≠ TRACK_UPPER := by
  refine ⟨by decide, by decide, by decide, by decide⟩

/-- Claim C8 (amended): when the clicked tile carries both vertical track
pieces, GenericPlaceSignals places the signal on TRACK_RIGHT iff the in-tile
fractional x coordinate is at most the fractional y coordinate, and on
TRACK_LEFT otherwise; when it carries both horizontal track pieces and no
vertical piece, it chooses TRACK_UPPER iff fractional x plus fractional y is
at most 15, and TRACK_LOWER otherwise. -/
theorem c8_signal_track_choice (trackbits fx fy : Nat) :
    (trackbits &&& TRACK_BIT_VERT = TRACK_BIT_VERT →
      GenericPlaceSignals_track trackbits fx fy =
        (if fx ≤ fy then TRACK_RIGHT else TRACK_LEFT)) ∧
    (trackbits &&& TRACK_BIT_HORZ = TRACK_BIT_HORZ →
      trackbits &&& TRACK_BIT_VERT = 0 →
      GenericPlaceSignals_track trackbits fx fy =
        (if fx + fy ≤ 15 then TRACK_UPPER else TRACK_LOWER)) := by
  constructor
  · intro hv
    have hcond : trackbits &&& TRACK_BIT_VERT ≠ 0 := by rw [hv]; decide
    simp only [GenericPlaceSignals_track, if_pos hcond]
    by_cases hf : fx ≤ fy
    · simp only [if_pos hf]
      rw [if_neg (show ¬(TRACK_BIT_RIGHT &&& TRACK_BIT_HORZ ≠ 0) from by decide)]
      decide
    · simp only [if_neg hf]
      rw [if_neg (show ¬(TRACK_BIT_LEFT &&& TRACK_BIT_HORZ ≠ 0) from by decide)]
      decide
  · intro hh hv
    have hcond : ¬(trackbits &&& TRACK_BIT_VERT ≠ 0) := by rw [hv]; decide
    simp only [GenericPlaceSignals_track, if_neg hcond]
    have hcond2 : trackbits &&& TRACK_BIT_HORZ ≠ 0 := by rw [hh]; decide
    simp only [if_pos hcond2]
    by_cases hf : fx + fy ≤ 15
    · simp only [if_pos hf]; decide
    · simp only [if_neg hf]; decide

/-- Witness for c8_signal_track_choice at trackbits 48 (both vertical pieces),
fractional coordinates (3, 7), and at trackbits 12 (both horizontal pieces,
no vertical), fractional coordinates (9, 9). -/
theorem c8_witness :
    (48 &&& TRACK_BIT_VERT = TRACK_BIT_VERT ∧
      GenericPlaceSignals_track 48 3 7 = (if (3 : Nat) ≤ 7 then TRACK_RIGHT else TRACK_LEFT)) ∧
    (12 &&& TRACK_BIT_HORZ = TRACK_BIT_HORZ ∧ 12 &&& TRACK_BIT_VERT = 0 ∧
      GenericPlaceSignals_track 12 9 9 = (if (9 : Nat) + 9 ≤ 15 then TRACK_UPPER else TRACK_LOWER)) :=
  ⟨⟨by decide, (c8_signal_track_choice 48 3 7).1 (by decide)⟩,
   ⟨by decide, by decide, (c8_signal_track_choice 12 9 9).2 (by decide) (by decide)⟩⟩

/-- Claim C9: for every depot orientation value in 0..3, the indices dir,
dir + 4 and dir + 8 used by CcRailDepot are within the bounds of the
12-element tables _place_depot_extra_track and _place_depot_extra_dir. -/
theorem c9_depot_tables_bounds (dir : Nat) (h : dir < 4) :
    _place_depot_extra_track.length = 12 ∧ _place_depot_extra_dir.length = 12 ∧
    dir < _place_depot_extra_track.length ∧
    dir + 4 < _place_depot_extra_track.length ∧
    dir + 8 < _place_depot_extra_track.length ∧
    dir < _place_depot_extra_dir.length ∧
    dir + 4 < _place_depot_extra_dir.length ∧
    dir + 8 < _place_depot_extra_dir.length := by
  have ht : _place_depot_extra_track.length = 12 := by decide
  have hd : _place_depot_extra_dir.length = 12 := by decide
  refine ⟨ht, hd, ?_, ?_, ?_, ?_, ?_, ?_⟩ <;> omega

/-- Witness for c9_depot_tables_bounds at dir = 3 (DIAGDIR_NW). -/
theorem c9_witness :
    3 < 4 ∧ (_place_depot_extra_track.length = 12 ∧ _place_depot_extra_dir.length = 12 ∧
      3 < _place_depot_extra_track.length ∧
      3 + 4 < _place_depot_extra_track.length ∧
      3 + 8 < _place_depot_extra_track.length ∧
      3 < _place_depot_extra_dir.length ∧
      3 + 4 < _place_depot_extra_dir.length ∧
      3 + 8 < _place_depot_extra_dir.length) :=
  ⟨by decide, c9_depot_tables_bounds 3 (by decide)⟩

/-- Claim C10: the drag-signals density setting stays within 1..20 under any
sequence of clicks on the decrease/increase buttons, because the decrease
handler only decrements when the value is strictly greater than 1 and the
increase handler only increments when it is strictly less than 20. -/
theorem c10_density_range (v : Nat) (h1 : 1 ≤ v) (h2 : v ≤ 20)
    (cs : List SignalDensityClick) :
    1 ≤ applyDensityClicks cs v ∧ applyDensityClicks cs v ≤ 20 := by
  induction cs generalizing v with
  | nil => exact ⟨h1, h2⟩
  | cons c cs ih =>
    have hstep : 1 ≤ BuildSignalWindow_OnClick_density c v ∧
        BuildSignalWindow_OnClick_density c v ≤ 20 := by
      cases c <;> simp only [BuildSignalWindow_OnClick_density] <;> split <;> omega
    exact ih (BuildSignalWindow_OnClick_density c v) hstep.1 hstep.2

/-- Witness for c10_density_range: start at 2, click decrease three times and
increase once; the result stays within 1..20. -/
theorem c10_witness :
    1 ≤ (2 : Nat) ∧ (2 : Nat) ≤ 20 ∧
    (1 ≤ applyDensityClicks
        [SignalDensityClick.decrease, SignalDensityClick.decrease,
         SignalDensityClick.decrease, SignalDensityClick.increase] 2 ∧
      applyDensityClicks
        [SignalDensityClick.decrease, SignalDensityClick.decrease,
         SignalDensityClick.decrease, SignalDensityClick.increase] 2 ≤ 20) :=
  ⟨by decide, by decide,
   c10_density_range 2 (by decide) (by decide)
     [SignalDensityClick.decrease, SignalDensityClick.decrease,
      SignalDensityClick.decrease, SignalDensityClick.increase]⟩

/-! Widget identifiers (widgets/rail_widget.h).  The values model the widget
enums; the theorems only rely on distinctness and, for the picker windows,
on the orientation/direction widgets being consecutive (the source indexes
them as base + enum value). -/

def WID_RAT_BUILD_NS : Nat := 1
def WID_RAT_BUILD_X : Nat := 2
def WID_RAT_BUILD_EW : Nat := 3
def WID_RAT_BUILD_Y : Nat := 4
def WID_RAT_AUTORAIL : Nat := 5
def WID_RAT_POLYRAIL : Nat := 6
def WID_RAT_DEMOLISH : Nat := 7
def WID_RAT_BUILD_DEPOT : Nat := 8
def WID_RAT_BUILD_WAYPOINT : Nat := 9
def WID_RAT_BUILD_STATION : Nat := 10
def WID_RAT_BUILD_SIGNALS : Nat := 11
def WID_RAT_BUILD_BRIDGE : Nat := 12
def WID_RAT_BUILD_TUNNEL : Nat := 13
def WID_RAT_REMOVE : Nat := 14
def WID_RAT_CONVERT_RAIL : Nat := 15

def WID_BRAS_PLATFORM_DIR_X : Nat := 100
def WID_BRAS_PLATFORM_DIR_Y : Nat := 101

def WID_BRAD_DEPOT_NE : Nat := 200
def WID_BRAD_DEPOT_SE : Nat := 201
def WID_BRAD_DEPOT_SW : Nat := 202
def WID_BRAD_DEPOT_NW : Nat := 203
def WID_BRAD_DEPOT_AUTO : Nat := 204

/-! Command identifiers and error-message string ids (command_type.h and the
language files, repository headers outside the excerpt).  Only distinctness
of the command ids matters to the theorems. -/

def CMD_BUILD_RAILROAD_TRACK : Nat := 0
def CMD_REMOVE_RAILROAD_TRACK : Nat := 1
def CMD_BUILD_SINGLE_RAIL : Nat := 2
def CMD_REMOVE_SINGLE_RAIL : Nat := 3

def STR_ERROR_CAN_T_BUILD_RAILROAD_TRACK : Nat := 30
def STR_ERROR_CAN_T_REMOVE_RAILROAD_TRACK : Nat := 31

/-- CMD_MSG(x): attach an error message string id to a command word
(command_func.h: the message occupies the bits from 16 up). -/
def CMD_MSG (x : Nat) : Nat := x <<< 16

/-- The command id part of a command word (low bits, below the CMD_MSG and
flag bits). -/
def commandIdOf (cmd : Nat) : Nat := cmd &&& 0xFFFF

/-- Identifiers naming the command callbacks of rail_gui.cpp, used as the
callback field of a CommandContainer. -/
def CALLBACK_CcPlaySound_CONSTRUCTION_RAIL : Nat := 1

/-- CommandContainer (command_type.h): one outgoing command record. -/
structure CommandContainer where
  tile : Nat
  p1 : Nat
  p2 : Nat
  cmd : Nat
  callback : Nat
  text : String
deriving DecidableEq, Repr

/-- The file-level mutable state read by the rail command constructors:
_cur_railtype, _remove_button_clicked and the client setting
gui.auto_remove_signals. -/
structure RailGuiGlobals where
  cur_railtype : Nat
  remove_button_clicked : Bool
  auto_remove_signals : Bool

/-- GenericPlaceRailCmd (rail_gui.cpp): build the single-rail command record
for a tile and track. -/
def GenericPlaceRailCmd (g : RailGuiGlobals) (tile cmd : Nat) : CommandContainer :=
  { tile := tile
    p1 := g.cur_railtype
    p2 := cmd ||| (g.auto_remove_signals.toNat <<< 3)
    cmd := if g.remove_button_clicked then
        CMD_REMOVE_SINGLE_RAIL ||| CMD_MSG STR_ERROR_CAN_T_REMOVE_RAILROAD_TRACK
      else
        CMD_BUILD_SINGLE_RAIL ||| CMD_MSG STR_ERROR_CAN_T_BUILD_RAILROAD_TRACK
    callback := CALLBACK_CcPlaySound_CONSTRUCTION_RAIL
    text := "" }

/-- DoRailroadTrackCmd (rail_gui.cpp): build the multi-tile railroad-track
command record for a start/end tile pair and track. -/
def DoRailroadTrackCmd (g : RailGuiGlobals) (start_tile end_tile track : Nat) : CommandContainer :=
  { tile := start_tile
    p1 := end_tile
    p2 := g.cur_railtype ||| (track <<< 6) ||| (g.auto_remove_signals.toNat <<< 11)
    cmd := if g.remove_button_clicked then
        CMD_REMOVE_RAILROAD_TRACK ||| CMD_MSG STR_ERROR_CAN_T_REMOVE_RAILROAD_TRACK
      else
        CMD_BUILD_RAILROAD_TRACK ||| CMD_MSG STR_ERROR_CAN_T_BUILD_RAILROAD_TRACK
    callback := CALLBACK_CcPlaySound_CONSTRUCTION_RAIL
    text := "" }

/-- The widget and selection state touched by ToggleRailButton_Remove: the
toolbar window's lowered flags, the global _remove_button_clicked, and the
selection colouring set through SetSelectionRed. -/
structure RailToolbarUI where
  lowered : Nat → Bool
  remove_button_clicked : Bool
  selection_red : Bool

/-- ToggleRailButton_Remove (rail_gui.cpp): toggle the lowered state of
WID_RAT_REMOVE, read it back into _remove_button_clicked, and colour the
selection accordingly.  (The source also closes the select-station window
and marks the widget dirty; those are presentation effects with no modelled
state.) -/
def ToggleRailButton_Remove (st : RailToolbarUI) : RailToolbarUI :=
  let lowered := fun w => if w = WID_RAT_REMOVE then !(st.lowered w) else st.lowered w
  let rbc := lowered WID_RAT_REMOVE
  { lowered := lowered, remove_button_clicked := rbc, selection_red := rbc }

/-- Claim C4: with the remove toggle set, the single-rail and railroad-track
records carry the removal command ids, with it clear the build command ids;
the tile, p1 and p2 fields of the records do not depend on the toggle (two
global states that agree on everything but the toggle produce identical
tile/p1/p2); and toggling the remove button changes only the remove widget's
lowered state (and the boolean and selection colour read from it), no other
button. -/
theorem c4_remove_toggle_commands (g g1 g2 : RailGuiGlobals)
    (tile cmd start_tile end_tile track : Nat) (st : RailToolbarUI) (w : Nat) :
    (g.remove_button_clicked = true →
      commandIdOf (GenericPlaceRailCmd g tile cmd).cmd = CMD_REMOVE_SINGLE_RAIL ∧
      commandIdOf (DoRailroadTrackCmd g start_tile end_tile track).cmd = CMD_REMOVE_RAILROAD_TRACK) ∧
    (g.remove_button_clicked = false →
      commandIdOf (GenericPlaceRailCmd g tile cmd).cmd = CMD_BUILD_SINGLE_RAIL ∧
      commandIdOf (DoRailroadTrackCmd g start_tile end_tile track).cmd = CMD_BUILD_RAILROAD_TRACK) ∧
    (g1.cur_railtype = g2.cur_railtype → g1.auto_remove_signals = g2.auto_remove_signals →
      (GenericPlaceRailCmd g1 tile cmd).tile = (GenericPlaceRailCmd g2 tile cmd).tile ∧
      (GenericPlaceRailCmd g1 tile cmd).p1 = (GenericPlaceRailCmd g2 tile cmd).p1 ∧
      (GenericPlaceRailCmd g1 tile cmd).p2 = (GenericPlaceRailCmd g2 tile cmd).p2 ∧
      (DoRailroadTrackCmd g1 start_tile end_tile track).tile =
        (DoRailroadTrackCmd g2 start_tile end_tile track).tile ∧
      (DoRailroadTrackCmd g1 start_tile end_tile track).p1 =
        (DoRailroadTrackCmd g2 start_tile end_tile track).p1 ∧
      (DoRailroadTrackCmd g1 start_tile end_tile track).p2 =
        (DoRailroadTrackCmd g2 start_tile end_tile track).p2) ∧
    (w ≠ WID_RAT_REMOVE → (ToggleRailButton_Remove st).lowered w = st.lowered w) ∧
    (ToggleRailButton_Remove st).remove_button_clicked = !(st.lowered WID_RAT_REMOVE) ∧
    (ToggleRailButton_Remove st).selection_red = (ToggleRailButton_Remove st).remove_button_clicked := by
  refine ⟨?_, ?_, ?_, ?_, ?_, rfl⟩
  · intro h
    constructor
    · simp only [GenericPlaceRailCmd, h, if_true]
      decide
    · simp only [DoRailroadTrackCmd, h, if_true]
      decide
  · intro h
    constructor
    · simp only [GenericPlaceRailCmd, h, Bool.false_eq_true, if_false]
      decide
    · simp only [DoRailroadTrackCmd, h, Bool.false_eq_true, if_false]
      decide
  · intro h1 h2
    refine ⟨rfl, ?_, ?_, rfl, ?_, ?_⟩ <;> simp [GenericPlaceRailCmd, DoRailroadTrackCmd, h1, h2]
  · intro hw
    simp [ToggleRailButton_Remove, hw]
  · simp [ToggleRailButton_Remove]

/-- Witness for c4_remove_toggle_commands at a concrete global state, tiles,
track and widget (w = WID_RAT_AUTORAIL, distinct from WID_RAT_REMOVE). -/
theorem c4_witness :
    (RailGuiGlobals.mk 0 true false).remove_button_clicked = true ∧
    (commandIdOf (GenericPlaceRailCmd ⟨0, true, false⟩ 7 5).cmd = CMD_REMOVE_SINGLE_RAIL ∧
      commandIdOf (DoRailroadTrackCmd ⟨0, true, false⟩ 7 9 5).cmd = CMD_REMOVE_RAILROAD_TRACK) ∧
    WID_RAT_AUTORAIL ≠ WID_RAT_REMOVE ∧
    (ToggleRailButton_Remove ⟨fun _ => false, false, false⟩).lowered WID_RAT_AUTORAIL =
      (fun (_ : Nat) => false) WID_RAT_AUTORAIL :=
  ⟨rfl,
   (c4_remove_toggle_commands ⟨0, true, false⟩ ⟨0, true, false⟩ ⟨0, true, false⟩ 7 5 7 9 5
      ⟨fun _ => false, false, false⟩ WID_RAT_AUTORAIL).1 rfl,
   by decide,
   (c4_remove_toggle_commands ⟨0, true, false⟩ ⟨0, true, false⟩ ⟨0, true, false⟩ 7 5 7 9 5
      ⟨fun _ => false, false, false⟩ WID_RAT_AUTORAIL).2.2.2.1 (by decide)⟩

/-! Command-completion callbacks (rail_gui.cpp).  Each callback is modelled
as a function from its inputs (the command result, its tile/p1/p2 arguments,
the relevant global and setting state, and the map state it queries) to the
list of externally visible actions it performs, in order. -/

/-- Sound id SND_20_CONSTRUCTION_RAIL. -/
def SND_20_CONSTRUCTION_RAIL : Nat := 0x20

/-- STAT_CLASS_DFLT (newgrf_station.h). -/
def STAT_CLASS_DFLT : Nat := 0

/-- Client settings read by the callbacks of rail_gui.cpp. -/
structure CbSettings where
  sound_confirm : Bool
  persistent_buildingtools : Bool
  auto_remove_signals : Bool

/-- Map state queried by CcRailDepot and PlaceExtraDepotRail, plus the pure
helper DiagdirReachesTracks of track_func.h (a repository header outside the
excerpt), all treated as an environment. -/
structure DepotMapEnv where
  isRailwayTile : TileXY → Bool
  railTileType : TileXY → Nat
  trackBits : TileXY → Nat
  diagdirReachesTracks : Nat → Nat

/-- Externally visible actions a callback can perform. -/
inductive UIEffect where
  | playTileSound (sound : Nat) (tile : TileXY)
  | resetObjectToPlace
  | doCommandP (tile : TileXY) (p1 p2 cmd : Nat)
  | storeRailPlacementEndpoints (start_tile end_tile : TileXY) (track : Nat) (bidirectional : Bool)
  | setRedErrorSquare (tile : TileXY)
deriving DecidableEq, Repr

/-- CcPlaySound_CONSTRUCTION_RAIL (rail_gui.cpp): play the construction sound
on success when the confirm-sound setting is on. -/
def CcPlaySound_CONSTRUCTION_RAIL (s : CbSettings) (succeeded : Bool) (tile : TileXY) :
    List UIEffect :=
  if succeeded && s.sound_confirm then [UIEffect.playTileSound SND_20_CONSTRUCTION_RAIL tile]
  else []

/-- PlaceExtraDepotRail (rail_gui.cpp): try to add one additional rail track
at a depot entrance; bails out on depot tiles, on signal tiles when signals
are not auto-removed, and when no present track reaches the tile from the
given direction, else issues the CMD_BUILD_SINGLE_RAIL command (no CMD_MSG
attached in the source). -/
def PlaceExtraDepotRail (env : DepotMapEnv) (s : CbSettings) (cur_railtype : Nat)
    (tile : TileXY) (dir track : Nat) : List UIEffect :=
  if env.railTileType tile = RAIL_TILE_DEPOT then []
  else if env.railTileType tile = RAIL_TILE_SIGNALS && !s.auto_remove_signals then []
  else if env.trackBits tile &&& env.diagdirReachesTracks dir = 0 then []
  else [UIEffect.doCommandP tile cur_railtype
    (track ||| (s.auto_remove_signals.toNat <<< 3)) CMD_BUILD_SINGLE_RAIL]

/-- TileOffsByDiagDir (map_func.h): per-DiagDirection tile offset. -/
def TileOffsByDiagDir (d : Nat) : Int × Int :=
  if d = DIAGDIR_NE then (-1, 0)
  else if d = DIAGDIR_SE then (0, 1)
  else if d = DIAGDIR_SW then (1, 0)
  else (0, -1)

/-- CcRailDepot (rail_gui.cpp): on failure do nothing; on success play the
confirm sound, reset the active tool unless building tools are persistent,
and, when the tile in front of the depot entrance is a railway tile, try the
three extra entrance rail pieces from the tables. -/
def CcRailDepot (env : DepotMapEnv) (s : CbSettings) (cur_railtype : Nat)
    (succeeded : Bool) (tile : TileXY) (p1 p2 : Nat) : List UIEffect :=
  if !succeeded then []
  else
    let dir := p2
    (if s.sound_confirm then [UIEffect.playTileSound SND_20_CONSTRUCTION_RAIL tile] else []) ++
    (if !s.persistent_buildingtools then [UIEffect.resetObjectToPlace] else []) ++
    (let tile := TILE_ADDXY tile (TileOffsByDiagDir dir).1 (TileOffsByDiagDir dir).2
     if env.isRailwayTile tile then
       PlaceExtraDepotRail env s cur_railtype tile
         (_place_depot_extra_dir.getD dir 0) (_place_depot_extra_track.getD dir 0) ++
       PlaceExtraDepotRail env s cur_railtype tile
         (_place_depot_extra_dir.getD (dir + 4) 0) (_place_depot_extra_track.getD (dir + 4) 0) ++
       PlaceExtraDepotRail env s cur_railtype tile
         (_place_depot_extra_dir.getD (dir + 8) 0) (_place_depot_extra_track.getD (dir + 8) 0)
     else [])

/-- The _railstation fields read by CcStation. -/
structure RailStationGUISettings where
  station_class : Nat
  station_type : Nat

/-- CcStation (rail_gui.cpp): on failure do nothing; on success play the
confirm sound and close the station builder for the default station when
building tools are not persistent. -/
def CcStation (s : CbSettings) (rs : RailStationGUISettings) (succeeded : Bool)
    (tile : TileXY) : List UIEffect :=
  if !succeeded then []
  else
    (if s.sound_confirm then [UIEffect.playTileSound SND_20_CONSTRUCTION_RAIL tile] else []) ++
    (if rs.station_class = STAT_CLASS_DFLT && rs.station_type = 0 &&
        !s.persistent_buildingtools then
      [UIEffect.resetObjectToPlace] else [])

/-- CcBuildRailTunnel (rail_gui.cpp): on success play the confirm sound,
reset the tool unless persistent, and store the rail placement endpoints
along the tunnel axis; on failure mark the tunnel end tile with the red
error square. -/
def CcBuildRailTunnel (s : CbSettings) (build_tunnel_endtile : TileXY)
    (succeeded : Bool) (tile : TileXY) : List UIEffect :=
  if succeeded then
    (if s.sound_confirm then [UIEffect.playTileSound SND_20_CONSTRUCTION_RAIL tile] else []) ++
    (if !s.persistent_buildingtools then [UIEffect.resetObjectToPlace] else []) ++
    [UIEffect.storeRailPlacementEndpoints tile build_tunnel_endtile
      (if tile.x = build_tunnel_endtile.x then TRACK_Y else TRACK_X) false]
  else
    [UIEffect.setRedErrorSquare build_tunnel_endtile]

/-- Claim C5: on a failed result every command-completion callback of
rail_gui.cpp performs none of its success actions: CcPlaySound, CcRailDepot
and CcStation perform nothing at all, and CcBuildRailTunnel performs exactly
the red-error-square marking of the tunnel end tile (no sound, no extra
depot rail, no stored endpoints, no tool reset). -/
theorem c5_callbacks_failure_noop (env : DepotMapEnv) (s : CbSettings)
    (cur_railtype : Nat) (rs : RailStationGUISettings) (tile endtile : TileXY) (p1 p2 : Nat) :
    CcPlaySound_CONSTRUCTION_RAIL s false tile = [] ∧
    CcRailDepot env s cur_railtype false tile p1 p2 = [] ∧
    CcStation s rs false tile = [] ∧
    CcBuildRailTunnel s endtile false tile = [UIEffect.setRedErrorSquare endtile] := by
  refine ⟨?_, ?_, ?_, ?_⟩
  · simp [CcPlaySound_CONSTRUCTION_RAIL]
  · simp [CcRailDepot]
  · simp [CcStation]
  · simp [CcBuildRailTunnel]

/-! Rail toolbar widget state (BuildRailToolbarWindow). -/

/-- The lowered and disabled flags of the rail toolbar's widgets. -/
structure ToolbarWinState where
  lowered : Nat → Bool
  disabled : Nat → Bool

/-- Modelled from the spec: Window::RaiseButtons is part of the host widget
framework (window_gui.h, not in the excerpt); per the spec's terminal state
for the toolbar ("no tool active (all buttons raised)") it raises every
button of the window. -/
def Window_RaiseButtons (st : ToolbarWinState) : ToolbarWinState :=
  { st with lowered := fun _ => false }

/-- BuildRailToolbarWindow::OnPlaceObjectAbort (rail_gui.cpp): raise all
buttons and disable the remove button.  (The source additionally closes the
picker windows and resets citymania highlight state; these touch no widget
state of this window.) -/
def BuildRailToolbarWindow_OnPlaceObjectAbort (st : ToolbarWinState) : ToolbarWinState :=
  let st1 := Window_RaiseButtons st
  { st1 with disabled := fun w => if w = WID_RAT_REMOVE then true else st1.disabled w }

/-- Claim C6: after OnPlaceObjectAbort every widget of the rail toolbar is
raised and the remove button is disabled (it is raised with the rest),
whatever the previous state. -/
theorem c6_abort_terminal_state (st : ToolbarWinState) (w : Nat) :
    (BuildRailToolbarWindow_OnPlaceObjectAbort st).lowered w = false ∧
    (BuildRailToolbarWindow_OnPlaceObjectAbort st).disabled WID_RAT_REMOVE = true := by
  constructor
  · rfl
  · simp [BuildRailToolbarWindow_OnPlaceObjectAbort, Window_RaiseButtons]

/-! Picker window selection state (BuildRailStationWindow,
BuildRailDepotWindow). -/

/-- Window::RaiseWidget of the host widget framework: clear one widget's
lowered flag. -/
def Window_RaiseWidget (lowered : Nat → Bool) (w : Nat) : Nat → Bool :=
  fun v => if v = w then false else lowered v

/-- Window::LowerWidget of the host widget framework: set one widget's
lowered flag. -/
def Window_LowerWidget (lowered : Nat → Bool) (w : Nat) : Nat → Bool :=
  fun v => if v = w then true else lowered v

/-- The widget state of the station builder window together with the global
_railstation.orientation it drives. -/
structure StationPickerState where
  lowered : Nat → Bool
  orientation : Nat

/-- The WID_BRAS_PLATFORM_DIR_X / WID_BRAS_PLATFORM_DIR_Y cases of
BuildRailStationWindow::OnClick: raise the widget of the old orientation,
store the clicked widget's axis, lower its widget. -/
def BuildRailStationWindow_OnClick_dir (st : StationPickerState) (widget : Nat) :
    StationPickerState :=
  let lowered1 := Window_RaiseWidget st.lowered (st.orientation + WID_BRAS_PLATFORM_DIR_X)
  let o := widget - WID_BRAS_PLATFORM_DIR_X
  { lowered := Window_LowerWidget lowered1 (o + WID_BRAS_PLATFORM_DIR_X), orientation := o }

/-- The CM_BRASHK_ROTATE hotkey of BuildRailStationWindow: raise the widget
of the old orientation, flip the axis, lower the new widget. -/
def BuildRailStationWindow_OnRotateHotkey (st : StationPickerState) : StationPickerState :=
  let lowered1 := Window_RaiseWidget st.lowered (st.orientation + WID_BRAS_PLATFORM_DIR_X)
  let o := OtherAxis st.orientation
  { lowered := Window_LowerWidget lowered1 (o + WID_BRAS_PLATFORM_DIR_X), orientation := o }

/-- The widget state of the depot builder window together with the global
_build_depot_direction it drives. -/
structure DepotPickerState where
  lowered : Nat → Bool
  build_depot_direction : Nat

/-- The WID_BRAD_DEPOT_NE .. WID_BRAD_DEPOT_AUTO cases of
BuildRailDepotWindow::OnClick: raise the widget of the old direction, store
the clicked widget's direction value, lower its widget. -/
def BuildRailDepotWindow_OnClick (st : DepotPickerState) (widget : Nat) : DepotPickerState :=
  let lowered1 := Window_RaiseWidget st.lowered (st.build_depot_direction + WID_BRAD_DEPOT_NE)
  let d := widget - WID_BRAD_DEPOT_NE
  { lowered := Window_LowerWidget lowered1 (d + WID_BRAD_DEPOT_NE), build_depot_direction := d }

/-- The ROTATE hotkey of BuildRailDepotWindow: for a concrete direction
rotate it 90 degrees right, re-lowering the matching widget; for the AUTO
selection the source only calls citymania::RotateAutodetection, changing no
widget and no direction. -/
def BuildRailDepotWindow_OnRotateHotkey (st : DepotPickerState) : DepotPickerState :=
  if st.build_depot_direction < DIAGDIR_END then
    let lowered1 := Window_RaiseWidget st.lowered (st.build_depot_direction + WID_BRAD_DEPOT_NE)
    let d := ChangeDiagDir st.build_depot_direction DIAGDIRDIFF_90RIGHT
    { lowered := Window_LowerWidget lowered1 (d + WID_BRAD_DEPOT_NE), build_depot_direction := d }
  else st

/-- One-value-selected invariant of the station orientation widgets: the
orientation is a valid axis and, among the two orientation widgets, exactly
the one matching the orientation is lowered. -/
def StationDirInv (st : StationPickerState) : Prop :=
  st.orientation ≤ 1 ∧
  ∀ w, WID_BRAS_PLATFORM_DIR_X ≤ w → w ≤ WID_BRAS_PLATFORM_DIR_Y →
    (st.lowered w = true ↔ w = st.orientation + WID_BRAS_PLATFORM_DIR_X)

/-- One-value-selected invariant of the depot direction widgets: the
direction is one of NE, SE, SW, NW or AUTO and, among the five direction
widgets, exactly the one matching the direction is lowered. -/
def DepotDirInv (st : DepotPickerState) : Prop :=
  st.build_depot_direction ≤ 4 ∧
  ∀ w, WID_BRAD_DEPOT_NE ≤ w → w ≤ WID_BRAD_DEPOT_AUTO →
    (st.lowered w = true ↔ w = st.build_depot_direction + WID_BRAD_DEPOT_NE)

/-- Raising the previously selected widget and lowering the newly selected
widget turns a one-value-selected lowered map for the old value into one for
the new value, on any consecutive widget range starting at base. -/
theorem raise_lower_select (lowered : Nat → Bool) (base top oldsel newsel : Nat)
    (hInv : ∀ w, base ≤ w → w ≤ top → (lowered w = true ↔ w = oldsel + base)) :
    ∀ w, base ≤ w → w ≤ top →
      ((Window_LowerWidget (Window_RaiseWidget lowered (oldsel + base)) (newsel + base)) w = true ↔
        w = newsel + base) := by
  intro w h1 h2
  by_cases hw : w = newsel + base
  · simp [Window_LowerWidget, Window_RaiseWidget, hw]
  · by_cases hwo : w = oldsel + base
    · simp [Window_LowerWidget, Window_RaiseWidget, hw, hwo]
    · simp only [Window_LowerWidget, Window_RaiseWidget, if_neg hw, if_neg hwo]
      rw [hInv w h1 h2]
      simp [hw, hwo]

/-- Claim C7: the one-value-selected invariant for the station orientation
and depot direction state: a click on an orientation or depot-direction
widget (or the rotate hotkey) leaves the global selection variable equal to
the clicked widget's enum value, with exactly the corresponding widget
lowered and the previously selected widget raised. -/
theorem c7_one_selected_invariant (st : StationPickerState) (dst : DepotPickerState)
    (widget dwidget : Nat) :
    ((widget = WID_BRAS_PLATFORM_DIR_X ∨ widget = WID_BRAS_PLATFORM_DIR_Y) →
      StationDirInv st →
      StationDirInv (BuildRailStationWindow_OnClick_dir st widget) ∧
      (BuildRailStationWindow_OnClick_dir st widget).orientation =
        widget - WID_BRAS_PLATFORM_DIR_X) ∧
    (StationDirInv st →
      StationDirInv (BuildRailStationWindow_OnRotateHotkey st) ∧
      (BuildRailStationWindow_OnRotateHotkey st).orientation = OtherAxis st.orientation) ∧
    ((WID_BRAD_DEPOT_NE ≤ dwidget → dwidget ≤ WID_BRAD_DEPOT_AUTO →
      DepotDirInv dst →
      DepotDirInv (BuildRailDepotWindow_OnClick dst dwidget) ∧
      (BuildRailDepotWindow_OnClick dst dwidget).build_depot_direction =
        dwidget - WID_BRAD_DEPOT_NE)) ∧
    (DepotDirInv dst → DepotDirInv (BuildRailDepotWindow_OnRotateHotkey dst)) := by
  refine ⟨?_, ?_, ?_, ?_⟩
  · intro hwidget hInv
    refine ⟨⟨?_, ?_⟩, rfl⟩
    · rcases hwidget with h | h <;> subst h <;>
        simp only [BuildRailStationWindow_OnClick_dir,
          WID_BRAS_PLATFORM_DIR_X, WID_BRAS_PLATFORM_DIR_Y] <;> omega
    · intro w h1 h2
      exact raise_lower_select st.lowered WID_BRAS_PLATFORM_DIR_X WID_BRAS_PLATFORM_DIR_Y
        st.orientation (widget - WID_BRAS_PLATFORM_DIR_X) hInv.2 w h1 h2
  · intro hInv
    refine ⟨⟨?_, ?_⟩, rfl⟩
    · have h1 := hInv.1
      have h01 : st.orientation = 0 ∨ st.orientation = 1 := by omega
      rcases h01 with h | h <;> simp [BuildRailStationWindow_OnRotateHotkey, OtherAxis, h]
    · intro w h1 h2
      exact raise_lower_select st.lowered WID_BRAS_PLATFORM_DIR_X WID_BRAS_PLATFORM_DIR_Y
        st.orientation (OtherAxis st.orientation) hInv.2 w h1 h2
  · intro hd1 hd2 hInv
    refine ⟨⟨?_, ?_⟩, rfl⟩
    · simp only [BuildRailDepotWindow_OnClick, WID_BRAD_DEPOT_NE,
        WID_BRAD_DEPOT_AUTO] at hd1 hd2 ⊢
      omega
    · intro w h1 h2
      exact raise_lower_select dst.lowered WID_BRAD_DEPOT_NE WID_BRAD_DEPOT_AUTO
        dst.build_depot_direction (dwidget - WID_BRAD_DEPOT_NE) hInv.2 w h1 h2
  · intro hInv
    by_cases hlt : dst.build_depot_direction < DIAGDIR_END
    · constructor
      · simp only [BuildRailDepotWindow_OnRotateHotkey, if_pos hlt, ChangeDiagDir]
        omega
      · simp only [BuildRailDepotWindow_OnRotateHotkey, if_pos hlt]
        intro w h1 h2
        exact raise_lower_select dst.lowered WID_BRAD_DEPOT_NE WID_BRAD_DEPOT_AUTO
          dst.build_depot_direction
          (ChangeDiagDir dst.build_depot_direction DIAGDIRDIFF_90RIGHT) hInv.2 w h1 h2
    · simp only [BuildRailDepotWindow_OnRotateHotkey, if_neg hlt]
      exact hInv

/-- Witness for c7_one_selected_invariant: the station window with
orientation AXIS_X selected and its widget lowered, clicking the
orientation-Y widget; and the depot window with direction NE selected,
clicking the AUTO widget. -/
theorem c7_witness :
    ((WID_BRAS_PLATFORM_DIR_Y = WID_BRAS_PLATFORM_DIR_X ∨
        WID_BRAS_PLATFORM_DIR_Y = WID_BRAS_PLATFORM_DIR_Y) ∧
      StationDirInv ⟨fun w => w = WID_BRAS_PLATFORM_DIR_X, 0⟩ ∧
      WID_BRAD_DEPOT_NE ≤ WID_BRAD_DEPOT_AUTO ∧ WID_BRAD_DEPOT_AUTO ≤ WID_BRAD_DEPOT_AUTO ∧
      DepotDirInv ⟨fun w => w = WID_BRAD_DEPOT_NE, 0⟩) ∧
    (StationDirInv (BuildRailStationWindow_OnClick_dir
        ⟨fun w => w = WID_BRAS_PLATFORM_DIR_X, 0⟩ WID_BRAS_PLATFORM_DIR_Y) ∧
      (BuildRailStationWindow_OnClick_dir
        ⟨fun w => w = WID_BRAS_PLATFORM_DIR_X, 0⟩ WID_BRAS_PLATFORM_DIR_Y).orientation =
        WID_BRAS_PLATFORM_DIR_Y - WID_BRAS_PLATFORM_DIR_X) ∧
    (DepotDirInv (BuildRailDepotWindow_OnClick
        ⟨fun w => w = WID_BRAD_DEPOT_NE, 0⟩ WID_BRAD_DEPOT_AUTO) ∧
      (BuildRailDepotWindow_OnClick
        ⟨fun w => w = WID_BRAD_DEPOT_NE, 0⟩ WID_BRAD_DEPOT_AUTO).build_depot_direction =
        WID_BRAD_DEPOT_AUTO - WID_BRAD_DEPOT_NE) :=
  have hs : StationDirInv ⟨fun w => w = WID_BRAS_PLATFORM_DIR_X, 0⟩ := by
    constructor
    · decide
    · intro w h1 h2
      simp only [WID_BRAS_PLATFORM_DIR_X, WID_BRAS_PLATFORM_DIR_Y] at *
      constructor
      · intro h
        simpa using of_decide_eq_true h
      · intro h
        simp [h]
  have hd : DepotDirInv ⟨fun w => w = WID_BRAD_DEPOT_NE, 0⟩ := by
    constructor
    · decide
    · intro w h1 h2
      simp only [WID_BRAD_DEPOT_NE, WID_BRAD_DEPOT_AUTO] at *
      constructor
      · intro h
        simpa using of_decide_eq_true h
      · intro h
        simp [h]
  ⟨⟨Or.inr rfl, hs, by decide, by decide, hd⟩,
   (c7_one_selected_invariant ⟨fun w => w = WID_BRAS_PLATFORM_DIR_X, 0⟩
      ⟨fun w => w = WID_BRAD_DEPOT_NE, 0⟩ WID_BRAS_PLATFORM_DIR_Y WID_BRAD_DEPOT_AUTO).1
     (Or.inr rfl) hs,
   (c7_one_selected_invariant ⟨fun w => w = WID_BRAS_PLATFORM_DIR_X, 0⟩
      ⟨fun w => w = WID_BRAD_DEPOT_NE, 0⟩ WID_BRAS_PLATFORM_DIR_Y WID_BRAD_DEPOT_AUTO).2.2.1
     (by decide) (by decide) hd⟩

/-! citymania autodirection terraform heuristic (rail_gui.cpp, namespace
citymania): DoAutodirTerraform and HandleAutodirTerraform.  The external
command engine is an environment: TileHeight and the estimating
DoCommand(..., CMD_LEVEL_LAND) are query functions, and the performed
commands are collected as an action trace.  The rail-placement closure
(rail_callback, which estimates the rail command, issues it unless the
track is already built, and stores the polyline snap endpoints) is treated
as one atomic action: railNow when invoked directly, levelChained when
installed as the completion callback of a level command. -/

/-- External collaborators of DoAutodirTerraform. -/
structure TerraEnv where
  tileHeight : TileXY → Nat
  levelEstimateOk : TileXY → TileXY → Nat → Bool
  railNowOk : Bool
  chainOk : TileXY → TileXY → Nat → Bool

/-- Commands performed by DoAutodirTerraform, in order. -/
inductive TerraAction where
  | levelP (e s : TileXY) (p2 : Nat)
  | levelChained (e s : TileXY) (p2 : Nat)
  | railNow
deriving DecidableEq, Repr

/-- The local p2_1 of DoAutodirTerraform: level-land parameter for the first
corner pair, built from the heights of the two reference tiles and the
diagonal flag. -/
def cm_autodir_p2_1 (env : TerraEnv) (diagonal : Bool) (s1 s2 : TileXY) : Nat :=
  ((if env.tileHeight s1 < env.tileHeight s2 then LM_RAISE else LM_LEVEL) <<< 1) |||
    (if diagonal then 1 else 0)

/-- The local p2_2 of DoAutodirTerraform: level-land parameter for the
second corner pair. -/
def cm_autodir_p2_2 (env : TerraEnv) (diagonal : Bool) (s1 s2 : TileXY) : Nat :=
  ((if env.tileHeight s2 < env.tileHeight s1 then LM_RAISE else LM_LEVEL) <<< 1) |||
    (if diagonal then 1 else 0)

/-- The local l1_fail of DoAutodirTerraform: the estimating level command
for the first corner pair does not succeed. -/
def cm_autodir_l1_fail (env : TerraEnv) (diagonal : Bool) (s1 s2 e1 : TileXY) : Bool :=
  !(env.levelEstimateOk e1 s1 (cm_autodir_p2_1 env diagonal s1 s2))

/-- The local l2_fail of DoAutodirTerraform. -/
def cm_autodir_l2_fail (env : TerraEnv) (diagonal : Bool) (s1 s2 e2 : TileXY) : Bool :=
  !(env.levelEstimateOk e2 s2 (cm_autodir_p2_2 env diagonal s1 s2))

/-- citymania::DoAutodirTerraform (rail_gui.cpp): returns the C++ bool
result together with the trace of performed commands.  The start/end tile,
track and rail_cmd arguments of the source only feed the rail-placement
closure and do not influence which commands run, so they are absorbed into
the atomic railNow/levelChained actions. -/
def DoAutodirTerraform (env : TerraEnv) (diagonal : Bool) (s1 e1 s2 e2 : TileXY) :
    Bool × List TerraAction :=
  let p2_1 := cm_autodir_p2_1 env diagonal s1 s2
  let p2_2 := cm_autodir_p2_2 env diagonal s1 s2
  let l1_fail := cm_autodir_l1_fail env diagonal s1 s2 e1
  let l2_fail := cm_autodir_l2_fail env diagonal s1 s2 e2
  if l1_fail && l2_fail then (env.railNowOk, [TerraAction.railNow])
  else if l2_fail then (env.chainOk e1 s1 p2_1, [TerraAction.levelChained e1 s1 p2_1])
  else if l1_fail then (env.chainOk e2 s2 p2_2, [TerraAction.levelChained e2 s2 p2_2])
  else (env.chainOk e2 s2 p2_2,
    [TerraAction.levelP e1 s1 p2_1, TerraAction.levelChained e2 s2 p2_2])

/-- The argument tuple HandleAutodirTerraform passes to DoAutodirTerraform. -/
structure AutodirInvocation where
  diagonal : Bool
  s1 : TileXY
  e1 : TileXY
  s2 : TileXY
  e2 : TileXY
deriving DecidableEq, Repr

/-- The switch of citymania::HandleAutodirTerraform (rail_gui.cpp): for each
of the twelve handled poly-directions, the diagonal flag and the corner tile
pairs (s1, e1, s2, e2) passed to DoAutodirTerraform; none for every other
value.  The locals eq and ez mirror the source comparisons of coordinate
differences and sums. -/
def HandleAutodirTerraformArgs (polyDir : Nat) (start_tile end_tile : TileXY) :
    Option AutodirInvocation :=
  let eq : Bool := end_tile.x - end_tile.y == start_tile.x - start_tile.y
  let ez : Bool := end_tile.x + end_tile.y == start_tile.x + start_tile.y
  if polyDir = TRACKDIR_X_NE then
    some ⟨false, TILE_ADDXY start_tile 1 0, end_tile,
      TILE_ADDXY start_tile 1 1, TILE_ADDXY end_tile 0 1⟩
  else if polyDir = TRACKDIR_X_SW then
    some ⟨false, start_tile, TILE_ADDXY end_tile 1 0,
      TILE_ADDXY start_tile 0 1, TILE_ADDXY end_tile 1 1⟩
  else if polyDir = TRACKDIR_Y_SE then
    some ⟨false, start_tile, TILE_ADDXY end_tile 0 1,
      TILE_ADDXY start_tile 1 0, TILE_ADDXY end_tile 1 1⟩
  else if polyDir = TRACKDIR_Y_NW then
    some ⟨false, TILE_ADDXY start_tile 0 1, end_tile,
      TILE_ADDXY start_tile 1 1, TILE_ADDXY end_tile 1 0⟩
  else if polyDir = TRACKDIR_LEFT_N then
    some ⟨true, TILE_ADDXY start_tile 1 0, TILE_ADDXY end_tile (boolToInt eq) 0,
      TILE_ADDXY start_tile 1 1, TILE_ADDXY end_tile 0 (boolToInt !eq)⟩
  else if polyDir = TRACKDIR_RIGHT_N then
    some ⟨true, TILE_ADDXY start_tile 0 1, TILE_ADDXY end_tile 0 (boolToInt eq),
      TILE_ADDXY start_tile 1 1, TILE_ADDXY end_tile (boolToInt !eq) 0⟩
  else if polyDir = TRACKDIR_LEFT_S then
    some ⟨true, TILE_ADDXY start_tile 1 0, TILE_ADDXY end_tile 1 (boolToInt !eq),
      start_tile, TILE_ADDXY end_tile (boolToInt eq) 1⟩
  else if polyDir = TRACKDIR_RIGHT_S then
    some ⟨true, TILE_ADDXY start_tile 0 1, TILE_ADDXY end_tile (boolToInt !eq) 1,
      start_tile, TILE_ADDXY end_tile 1 (boolToInt eq)⟩
  else if polyDir = TRACKDIR_UPPER_E then
    some ⟨true, start_tile, TILE_ADDXY end_tile 0 (boolToInt !ez),
      TILE_ADDXY start_tile 1 0, TILE_ADDXY end_tile (boolToInt !ez) 1⟩
  else if polyDir = TRACKDIR_LOWER_E then
    some ⟨true, TILE_ADDXY start_tile 1 1, TILE_ADDXY end_tile (boolToInt ez) 1,
      TILE_ADDXY start_tile 1 0, TILE_ADDXY end_tile 0 (boolToInt ez)⟩
  else if polyDir = TRACKDIR_UPPER_W then
    some ⟨true, start_tile, TILE_ADDXY end_tile (boolToInt !ez) 0,
      TILE_ADDXY start_tile 0 1, TILE_ADDXY end_tile 1 (boolToInt !ez)⟩
  else if polyDir = TRACKDIR_LOWER_W then
    some ⟨true, TILE_ADDXY start_tile 1 1, TILE_ADDXY end_tile 1 (boolToInt ez),
      TILE_ADDXY start_tile 0 1, TILE_ADDXY end_tile (boolToInt ez) 0⟩
  else none

/-- citymania::HandleAutodirTerraform (rail_gui.cpp): dispatch on the
current poly-direction; the default branch of the switch performs nothing
and the function returns true. -/
def HandleAutodirTerraform (env : TerraEnv) (polyDir : Nat)
    (start_tile end_tile : TileXY) : Bool × List TerraAction :=
  match HandleAutodirTerraformArgs polyDir start_tile end_tile with
  | some inv => DoAutodirTerraform env inv.diagonal inv.s1 inv.e1 inv.s2 inv.e2
  | none => (true, [])

/-- The twelve poly-directions handled by HandleAutodirTerraform's switch. -/
def cm_handled_trackdirs : List Nat :=
  [TRACKDIR_X_NE, TRACKDIR_X_SW, TRACKDIR_Y_SE, TRACKDIR_Y_NW,
   TRACKDIR_LEFT_N, TRACKDIR_RIGHT_N, TRACKDIR_LEFT_S, TRACKDIR_RIGHT_S,
   TRACKDIR_UPPER_E, TRACKDIR_LOWER_E, TRACKDIR_UPPER_W, TRACKDIR_LOWER_W]

/-- The eight diagonal (non-X, non-Y) handled poly-directions. -/
def cm_diagonal_trackdirs : List Nat :=
  [TRACKDIR_LEFT_N, TRACKDIR_RIGHT_N, TRACKDIR_LEFT_S, TRACKDIR_RIGHT_S,
   TRACKDIR_UPPER_E, TRACKDIR_LOWER_E, TRACKDIR_UPPER_W, TRACKDIR_LOWER_W]

/-- For a poly-direction outside the twelve handled ones the switch of
HandleAutodirTerraform selects no invocation. -/
theorem cm_args_none (polyDir : Nat) (start_tile end_tile : TileXY)
    (hm : polyDir ∉ cm_handled_trackdirs) :
    HandleAutodirTerraformArgs polyDir start_tile end_tile = none := by
  simp only [cm_handled_trackdirs, List.mem_cons, List.not_mem_nil, or_false, not_or] at hm
  obtain ⟨n1, n2, n3, n4, n5, n6, n7, n8, n9, n10, n11, n12⟩ := hm
  simp only [HandleAutodirTerraformArgs, if_neg n1, if_neg n2, if_neg n3, if_neg n4,
    if_neg n5, if_neg n6, if_neg n7, if_neg n8, if_neg n9, if_neg n10, if_neg n11, if_neg n12]

/-- The switch of HandleAutodirTerraform produces an invocation exactly for
the twelve handled poly-directions. -/
theorem cm_args_some_iff (polyDir : Nat) (start_tile end_tile : TileXY) :
    (HandleAutodirTerraformArgs polyDir start_tile end_tile).isSome = true ↔
      polyDir ∈ cm_handled_trackdirs := by
  by_cases hm : polyDir ∈ cm_handled_trackdirs
  · refine ⟨fun _ => hm, fun _ => ?_⟩
    simp only [cm_handled_trackdirs, List.mem_cons, List.not_mem_nil, or_false] at hm
    rcases hm with h | h | h | h | h | h | h | h | h | h | h | h <;> subst h <;> rfl
  · rw [cm_args_none polyDir start_tile end_tile hm]
    simp [hm]

/-- The diagonal flag of the invocation is set exactly for the eight
diagonal handled poly-directions. -/
theorem cm_args_diagonal_iff (polyDir : Nat) (start_tile end_tile : TileXY)
    (inv : AutodirInvocation)
    (h : HandleAutodirTerraformArgs polyDir start_tile end_tile = some inv) :
    (inv.diagonal = true ↔ polyDir ∈ cm_diagonal_trackdirs) := by
  have hm : polyDir ∈ cm_handled_trackdirs := by
    by_contra hmn
    rw [cm_args_none polyDir start_tile end_tile hmn] at h
    exact Option.noConfusion h
  have hd := congrArg (Option.map AutodirInvocation.diagonal) h
  simp only [cm_handled_trackdirs, List.mem_cons, List.not_mem_nil, or_false] at hm
  rcases hm with hh | hh | hh | hh | hh | hh | hh | hh | hh | hh | hh | hh <;> subst hh
  · rw [show (HandleAutodirTerraformArgs TRACKDIR_X_NE start_tile end_tile).map
        AutodirInvocation.diagonal = some false from rfl] at hd
    rw [(Option.some.inj hd).symm]
    exact ⟨fun hb => Bool.noConfusion hb, fun hmem => absurd hmem (by decide)⟩
  · rw [show (HandleAutodirTerraformArgs TRACKDIR_X_SW start_tile end_tile).map
        AutodirInvocation.diagonal = some false from rfl] at hd
    rw [(Option.some.inj hd).symm]
    exact ⟨fun hb => Bool.noConfusion hb, fun hmem => absurd hmem (by decide)⟩
  · rw [show (HandleAutodirTerraformArgs TRACKDIR_Y_SE start_tile end_tile).map
        AutodirInvocation.diagonal = some false from rfl] at hd
    rw [(Option.some.inj hd).symm]
    exact ⟨fun hb => Bool.noConfusion hb, fun hmem => absurd hmem (by decide)⟩
  · rw [show (HandleAutodirTerraformArgs TRACKDIR_Y_NW start_tile end_tile).map
        AutodirInvocation.diagonal = some false from rfl] at hd
    rw [(Option.some.inj hd).symm]
    exact ⟨fun hb => Bool.noConfusion hb, fun hmem => absurd hmem (by decide)⟩
  · rw [show (HandleAutodirTerraformArgs TRACKDIR_LEFT_N start_tile end_tile).map
        AutodirInvocation.diagonal = some true from rfl] at hd
    rw [(Option.some.inj hd).symm]
    exact ⟨fun _ => by decide, fun _ => rfl⟩
  · rw [show (HandleAutodirTerraformArgs TRACKDIR_RIGHT_N start_tile end_tile).map
        AutodirInvocation.diagonal = some true from rfl] at hd
    rw [(Option.some.inj hd).symm]
    exact ⟨fun _ => by decide, fun _ => rfl⟩
  · rw [show (HandleAutodirTerraformArgs TRACKDIR_LEFT_S start_tile end_tile).map
        AutodirInvocation.diagonal = some true from rfl] at hd
    rw [(Option.some.inj hd).symm]
    exact ⟨fun _ => by decide, fun _ => rfl⟩
  · rw [show (HandleAutodirTerraformArgs TRACKDIR_RIGHT_S start_tile end_tile).map
        AutodirInvocation.diagonal = some true from rfl] at hd
    rw [(Option.some.inj hd).symm]
    exact ⟨fun _ => by decide, fun _ => rfl⟩
  · rw [show (HandleAutodirTerraformArgs TRACKDIR_UPPER_E start_tile end_tile).map
        AutodirInvocation.diagonal = some true from rfl] at hd
    rw [(Option.some.inj hd).symm]
    exact ⟨fun _ => by decide, fun _ => rfl⟩
  · rw [show (HandleAutodirTerraformArgs TRACKDIR_LOWER_E start_tile end_tile).map
        AutodirInvocation.diagonal = some true from rfl] at hd
    rw [(Option.some.inj hd).symm]
    exact ⟨fun _ => by decide, fun _ => rfl⟩
  · rw [show (HandleAutodirTerraformArgs TRACKDIR_UPPER_W start_tile end_tile).map
        AutodirInvocation.diagonal = some true from rfl] at hd
    rw [(Option.some.inj hd).symm]
    exact ⟨fun _ => by decide, fun _ => rfl⟩
  · rw [show (HandleAutodirTerraformArgs TRACKDIR_LOWER_W start_tile end_tile).map
        AutodirInvocation.diagonal = some true from rfl] at hd
    rw [(Option.some.inj hd).symm]
    exact ⟨fun _ => by decide, fun _ => rfl⟩

/-- Claim C1: for every candidate corner pair, with each levelling attempt
tested by an estimating DoCommand: if both fail the rail-placement closure
runs directly; if exactly one succeeds, exactly that level command is
issued, carrying the rail-placement closure as completion callback; and in
every case the trace invokes the rail placement (directly or chained), so
track placement is never skipped. -/
theorem c1_autodir_track_always_attempted (env : TerraEnv) (diagonal : Bool)
    (s1 e1 s2 e2 : TileXY) :
    (cm_autodir_l1_fail env diagonal s1 s2 e1 = true →
      cm_autodir_l2_fail env diagonal s1 s2 e2 = true →
      (DoAutodirTerraform env diagonal s1 e1 s2 e2).2 = [TerraAction.railNow]) ∧
    (cm_autodir_l1_fail env diagonal s1 s2 e1 = false →
      cm_autodir_l2_fail env diagonal s1 s2 e2 = true →
      (DoAutodirTerraform env diagonal s1 e1 s2 e2).2 =
        [TerraAction.levelChained e1 s1 (cm_autodir_p2_1 env diagonal s1 s2)]) ∧
    (cm_autodir_l1_fail env diagonal s1 s2 e1 = true →
      cm_autodir_l2_fail env diagonal s1 s2 e2 = false →
      (DoAutodirTerraform env diagonal s1 e1 s2 e2).2 =
        [TerraAction.levelChained e2 s2 (cm_autodir_p2_2 env diagonal s1 s2)]) ∧
    (TerraAction.railNow ∈ (DoAutodirTerraform env diagonal s1 e1 s2 e2).2 ∨
      ∃ e s p2, TerraAction.levelChained e s p2 ∈
        (DoAutodirTerraform env diagonal s1 e1 s2 e2).2) := by
  refine ⟨?_, ?_, ?_, ?_⟩
  · intro h1 h2; simp [DoAutodirTerraform, h1, h2]
  · intro h1 h2; simp [DoAutodirTerraform, h1, h2]
  · intro h1 h2; simp [DoAutodirTerraform, h1, h2]
  · cases h1 : cm_autodir_l1_fail env diagonal s1 s2 e1 <;>
      cases h2 : cm_autodir_l2_fail env diagonal s1 s2 e2
    · exact Or.inr ⟨e2, s2, cm_autodir_p2_2 env diagonal s1 s2,
        by simp [DoAutodirTerraform, h1, h2]⟩
    · exact Or.inr ⟨e1, s1, cm_autodir_p2_1 env diagonal s1 s2,
        by simp [DoAutodirTerraform, h1, h2]⟩
    · exact Or.inr ⟨e2, s2, cm_autodir_p2_2 env diagonal s1 s2,
        by simp [DoAutodirTerraform, h1, h2]⟩
    · exact Or.inl (by simp [DoAutodirTerraform, h1, h2])

/-- Claim C2: the level mode of each corner pair follows the relative
heights of the two reference tiles (strictly lower reference tile raised,
the other levelled, both levelled on equal heights), the low bit of both
level parameters is the diagonal flag, and the diagonal flag of the
invocation built by HandleAutodirTerraform is set exactly for the eight
diagonal (non-X, non-Y) poly-directions. -/
theorem c2_autodir_level_modes (env : TerraEnv) (diagonal : Bool) (s1 s2 : TileXY)
    (polyDir : Nat) (start_tile end_tile : TileXY) :
    (env.tileHeight s1 < env.tileHeight s2 →
      cm_autodir_p2_1 env diagonal s1 s2 >>> 1 = LM_RAISE ∧
      cm_autodir_p2_2 env diagonal s1 s2 >>> 1 = LM_LEVEL) ∧
    (env.tileHeight s2 < env.tileHeight s1 →
      cm_autodir_p2_1 env diagonal s1 s2 >>> 1 = LM_LEVEL ∧
      cm_autodir_p2_2 env diagonal s1 s2 >>> 1 = LM_RAISE) ∧
    (env.tileHeight s1 = env.tileHeight s2 →
      cm_autodir_p2_1 env diagonal s1 s2 >>> 1 = LM_LEVEL ∧
      cm_autodir_p2_2 env diagonal s1 s2 >>> 1 = LM_LEVEL) ∧
    cm_autodir_p2_1 env diagonal s1 s2 &&& 1 = (if diagonal then 1 else 0) ∧
    cm_autodir_p2_2 env diagonal s1 s2 &&& 1 = (if diagonal then 1 else 0) ∧
    (∀ inv, HandleAutodirTerraformArgs polyDir start_tile end_tile = some inv →
      (inv.diagonal = true ↔ polyDir ∈ cm_diagonal_trackdirs)) := by
  refine ⟨?_, ?_, ?_, ?_, ?_,
    fun inv h => cm_args_diagonal_iff polyDir start_tile end_tile inv h⟩
  · intro h
    have h21 : ¬(env.tileHeight s2 < env.tileHeight s1) := by omega
    constructor
    · simp only [cm_autodir_p2_1, if_pos h]
      cases diagonal <;> decide
    · simp only [cm_autodir_p2_2, if_neg h21]
      cases diagonal <;> decide
  · intro h
    have h12 : ¬(env.tileHeight s1 < env.tileHeight s2) := by omega
    constructor
    · simp only [cm_autodir_p2_1, if_neg h12]
      cases diagonal <;> decide
    · simp only [cm_autodir_p2_2, if_pos h]
      cases diagonal <;> decide
  · intro h
    have h12 : ¬(env.tileHeight s1 < env.tileHeight s2) := by omega
    have h21 : ¬(env.tileHeight s2 < env.tileHeight s1) := by omega
    constructor
    · simp only [cm_autodir_p2_1, if_neg h12]
      cases diagonal <;> decide
    · simp only [cm_autodir_p2_2, if_neg h21]
      cases diagonal <;> decide
  · by_cases hlt : env.tileHeight s1 < env.tileHeight s2
    · simp only [cm_autodir_p2_1, if_pos hlt]
      cases diagonal <;> decide
    · simp only [cm_autodir_p2_1, if_neg hlt]
      cases diagonal <;> decide
  · by_cases hlt : env.tileHeight s2 < env.tileHeight s1
    · simp only [cm_autodir_p2_2, if_pos hlt]
      cases diagonal <;> decide
    · simp only [cm_autodir_p2_2, if_neg hlt]
      cases diagonal <;> decide

/-- Claim C3: HandleAutodirTerraform computes an invocation of the terraform
heuristic for exactly the twelve listed poly-directions (pairwise distinct);
for every other value of the poly-direction it performs no command and
returns true. -/
theorem c3_handle_twelve_dirs (polyDir : Nat) (start_tile end_tile : TileXY)
    (env : TerraEnv) :
    (cm_handled_trackdirs.length = 12 ∧ cm_handled_trackdirs.Nodup) ∧
    ((HandleAutodirTerraformArgs polyDir start_tile end_tile).isSome = true ↔
      polyDir ∈ cm_handled_trackdirs) ∧
    (polyDir ∉ cm_handled_trackdirs →
      HandleAutodirTerraform env polyDir start_tile end_tile = (true, [])) := by
  refine ⟨⟨by decide, by decide⟩, cm_args_some_iff polyDir start_tile end_tile, ?_⟩
  intro hnm
  unfold HandleAutodirTerraform
  rw [cm_args_none polyDir start_tile end_tile hnm]

/-- A concrete environment for the witnesses: heights follow the x
coordinate, every estimating level command fails, commands with callbacks
report success. -/
def cm_test_env : TerraEnv :=
  ⟨fun t => t.x.toNat, fun _ _ _ => false, true, fun _ _ _ => true⟩

/-- Witness for c1_autodir_track_always_attempted: in cm_test_env both
levelling estimates fail, and the heuristic invokes the rail placement
directly. -/
theorem c1_witness :
    (cm_autodir_l1_fail cm_test_env false ⟨0, 0⟩ ⟨1, 0⟩ ⟨0, 1⟩ = true ∧
      cm_autodir_l2_fail cm_test_env false ⟨0, 0⟩ ⟨1, 0⟩ ⟨1, 1⟩ = true) ∧
    (DoAutodirTerraform cm_test_env false ⟨0, 0⟩ ⟨0, 1⟩ ⟨1, 0⟩ ⟨1, 1⟩).2 =
      [TerraAction.railNow] :=
  ⟨⟨by decide, by decide⟩,
   (c1_autodir_track_always_attempted cm_test_env false ⟨0, 0⟩ ⟨0, 1⟩ ⟨1, 0⟩ ⟨1, 1⟩).1
     (by decide) (by decide)⟩

/-- Witness for c2_autodir_level_modes: with reference tile heights 0 < 1
the first corner is raised and the second levelled, and for the diagonal
poly-direction TRACKDIR_LEFT_N the invocation's diagonal flag is set. -/
theorem c2_witness :
    (cm_test_env.tileHeight ⟨0, 0⟩ < cm_test_env.tileHeight ⟨1, 0⟩ ∧
      cm_autodir_p2_1 cm_test_env true ⟨0, 0⟩ ⟨1, 0⟩ >>> 1 = LM_RAISE ∧
      cm_autodir_p2_2 cm_test_env true ⟨0, 0⟩ ⟨1, 0⟩ >>> 1 = LM_LEVEL) ∧
    (HandleAutodirTerraformArgs TRACKDIR_LEFT_N ⟨0, 0⟩ ⟨0, 0⟩ =
        some ⟨true, ⟨1, 0⟩, ⟨1, 0⟩, ⟨1, 1⟩, ⟨0, 0⟩⟩ ∧
      ((⟨true, ⟨1, 0⟩, ⟨1, 0⟩, ⟨1, 1⟩, ⟨0, 0⟩⟩ : AutodirInvocation).diagonal = true ↔
        TRACKDIR_LEFT_N ∈ cm_diagonal_trackdirs)) :=
  ⟨⟨by decide,
    (c2_autodir_level_modes cm_test_env true ⟨0, 0⟩ ⟨1, 0⟩ TRACKDIR_LEFT_N ⟨0, 0⟩ ⟨0, 0⟩).1
      (by decide)⟩,
   ⟨by decide,
    (c2_autodir_level_modes cm_test_env true ⟨0, 0⟩ ⟨1, 0⟩ TRACKDIR_LEFT_N ⟨0, 0⟩ ⟨0, 0⟩).2.2.2.2.2
      ⟨true, ⟨1, 0⟩, ⟨1, 0⟩, ⟨1, 1⟩, ⟨0, 0⟩⟩ (by decide)⟩⟩

/-- Witness for c3_handle_twelve_dirs at polyDir 6 (a reversing trackdir,
not handled): the heuristic performs nothing and returns true. -/
theorem c3_witness :
    (6 ∉ cm_handled_trackdirs) ∧
    HandleAutodirTerraform cm_test_env 6 ⟨0, 0⟩ ⟨0, 0⟩ = (true, []) :=
  ⟨by decide, (c3_handle_twelve_dirs 6 ⟨0, 0⟩ ⟨0, 0⟩ cm_test_env).2.2 (by decide)⟩
